import Mathlib

/-!
Verification development for the bull-roulette core (src/core/math.ts,
src/core/rng.ts, the state module with planSpin/beginSpin/step, and
src/core/engine.ts), together with the validation module exported from the
core barrel.

Modelling conventions:
* JavaScript numbers are modelled as rationals (every float is a rational,
  and all arithmetic the claims exercise is exact at the inputs considered).
* The JavaScript remainder operator a % b (sign of the dividend, truncated
  quotient) is `jsMod`; Math.floor is the floor on rationals; Math.round is
  round-half-up; Math.trunc-style conversion is `jsTrunc`.
* The 32-bit integer pipeline of rng.ts (Math.imul, xor, shifts, >>> 0) is
  modelled on naturals reduced modulo 2^32: the bit pattern of a JS int32 value
  is its value modulo 2^32, and xor, or, shifts, multiplication and addition
  on patterns agree with the JS int32/uint32 operations modulo 2^32.
* A source function that takes a `rng: () => number` closure and performs a
  fixed number of draws receives the drawn values instead: `planSpin`
  resolves its generator from the config exactly as the source does and
  reads draw number 0 for the rotation count, draw 1 for the weighted
  selection and the following draw for the jitter, matching the order of
  the rng() calls in the source.  `Math.random` is an explicit stream
  parameter (`mathRandom`).
* Throwing JS functions return `Except String`; the engine closure is a
  record and each engine method is a function from that record (plus
  arguments) to the updated record together with the list of events
  delivered to subscribers (subscriber id paired with the event).
-/

namespace BullRoulette

/-- JS Math.trunc-style integer conversion: rounds toward zero. -/
def jsTrunc (q : ℚ) : ℤ := if 0 ≤ q then ⌊q⌋ else -⌊-q⌋

/-- JS remainder operator a % b: a - b * trunc (a / b), sign of the dividend. -/
def jsMod (a b : ℚ) : ℚ := a - b * (jsTrunc (a / b) : ℚ)

/-- Degrees in a full rotation (math.ts FULL_ROTATION). -/
def FULL_ROTATION : ℚ := 360

/-- math.ts clamp: Math.min(max, Math.max(min, value)). -/
def clamp (value lo hi : ℚ) : ℚ := min hi (max lo value)

/-- math.ts normalizeAngle: angle % 360, plus 360 if negative. -/
def normalizeAngle (angle : ℚ) : ℚ :=
  let normalized := jsMod angle FULL_ROTATION
  if normalized < 0 then normalized + FULL_ROTATION else normalized

/-- math.ts lerp: start + (end - start) * t. -/
def lerp (a b t : ℚ) : ℚ := a + (b - a) * t

/-- math.ts easeOutCubic: 1 - (1 - t)^3. -/
def easeOutCubic (t : ℚ) : ℚ := 1 - (1 - t) ^ 3

theorem jsTrunc_of_nonneg {q : ℚ} (h : 0 ≤ q) : jsTrunc q = ⌊q⌋ := by
  simp [jsTrunc, h]

theorem jsTrunc_of_neg {q : ℚ} (h : q < 0) : jsTrunc q = -⌊-q⌋ := by
  simp [jsTrunc, not_le.mpr h]

/-- The composite of JS remainder and negative fixup is the mathematical
floor-based modulus: normalizeAngle a = 360 * fract (a / 360). -/
theorem normalizeAngle_eq_fract (a : ℚ) :
    normalizeAngle a = 360 * Int.fract (a / 360) := by
  have ha : a / 360 * 360 = a := div_mul_cancel₀ a (by norm_num)
  simp only [normalizeAngle, jsMod, FULL_ROTATION]
  rcases le_or_lt 0 (a / 360) with h | h
  · rw [jsTrunc_of_nonneg h]
    have hn : a - 360 * ((⌊a / 360⌋ : ℤ) : ℚ) = 360 * Int.fract (a / 360) := by
      rw [Int.fract]
      nlinarith [ha]
    rw [hn]
    have h0 : (0 : ℚ) ≤ 360 * Int.fract (a / 360) := by
      have := Int.fract_nonneg (a / 360)
      positivity
    rw [if_neg (not_lt.mpr h0)]
  · rw [jsTrunc_of_neg h]
    have hn : a - 360 * ((-⌊-(a / 360)⌋ : ℤ) : ℚ) = -(360 * Int.fract (-(a / 360))) := by
      rw [Int.fract]
      push_cast
      nlinarith [ha]
    rw [hn]
    by_cases h0 : Int.fract (a / 360) = 0
    · have hneg : Int.fract (-(a / 360)) = 0 := Int.fract_neg_eq_zero.mpr h0
      rw [hneg, h0]
      norm_num
    · have hneg : Int.fract (-(a / 360)) = 1 - Int.fract (a / 360) := Int.fract_neg h0
      rw [hneg]
      have hf1 : Int.fract (a / 360) < 1 := Int.fract_lt_one (a / 360)
      have hlt : -(360 * (1 - Int.fract (a / 360))) < 0 := by nlinarith
      rw [if_pos hlt]
      ring

/-- normalizeAngle lands in the interval from 0 inclusive to 360 exclusive. -/
theorem normalizeAngle_nonneg (a : ℚ) : 0 ≤ normalizeAngle a := by
  rw [normalizeAngle_eq_fract]
  have := Int.fract_nonneg (a / 360)
  positivity

theorem normalizeAngle_lt (a : ℚ) : normalizeAngle a < 360 := by
  rw [normalizeAngle_eq_fract]
  have := Int.fract_lt_one (a / 360)
  nlinarith

theorem normalizeAngle_add_int_mul (a : ℚ) (k : ℤ) :
    normalizeAngle (a + 360 * k) = normalizeAngle a := by
  rw [normalizeAngle_eq_fract, normalizeAngle_eq_fract]
  have hq : (a + 360 * (k : ℚ)) / 360 = a / 360 + (k : ℚ) := by
    field_simp
    ring
  rw [hq, Int.fract_add_int]

/-! rng.ts: string hash and mulberry32 generator.  Bit patterns of JS 32-bit
values are naturals below 2^32; Math.imul and additions are reduced modulo
2^32, which agrees with the signed JS results as bit patterns. -/

/-- 2^32, the modulus of the 32-bit pipeline. -/
def U32 : ℕ := 4294967296

/-- Math.imul as a bit pattern: 32-bit product. -/
def imul32 (x y : ℕ) : ℕ := x * y % U32

/-- One iteration of the hashStringSeed loop:
h = imul(h ^ c, 3432918353); h = (h << 13) | (h >>> 19). -/
def hashStep (h c : ℕ) : ℕ :=
  let h1 := imul32 (h ^^^ c) 3432918353
  (h1 <<< 13) % U32 ||| (h1 >>> 19)

/-- rng.ts hashStringSeed over the character codes of the seed string,
starting from 1779033703 ^ seed.length; the final h >>> 0 is the pattern
itself. -/
def hashStringSeed (codes : List ℕ) : ℕ :=
  codes.foldl hashStep (1779033703 ^^^ codes.length)

/-- rng.ts mulberry32.  The closure variable a is only ever incremented by
0x6d2b79f5 (no wrap at the addition: JS adds as a float and the bitwise
operations of the output path reduce modulo 2^32), so the n-th draw
(0-based) reads the pattern of seed + (n+1) * 0x6d2b79f5. -/
def mulberry32 (seed : ℕ) : ℕ → ℚ := fun n =>
  let a := (seed + (n + 1) * 0x6d2b79f5) % U32
  let t1 := imul32 (a ^^^ (a >>> 15)) (a ||| 1)
  let t2 := t1 ^^^ ((t1 + imul32 (t1 ^^^ (t1 >>> 7)) (t1 ||| 61)) % U32)
  ((t2 ^^^ (t2 >>> 14) : ℕ) : ℚ) / 4294967296

/-- A seed is a number or a string (kept as its character codes). -/
inductive SeedValue where
  | num (n : ℕ)
  | str (codes : List ℕ)

/-- rng.ts createSeededRng: numbers via >>> 0, strings via hashStringSeed. -/
def createSeededRng : SeedValue → (ℕ → ℚ)
  | .num n => mulberry32 (n % U32)
  | .str codes => mulberry32 (hashStringSeed codes)

/-! types.ts data model. -/

structure Segment where
  id : String
  label : Option String := none
  weight : Option ℚ := none
deriving DecidableEq

inductive Phase where
  | idle
  | spinning
  | stopped
deriving DecidableEq

structure RouletteConfig where
  segments : List Segment
  minRotations : Option ℚ := none
  maxRotations : Option ℚ := none
  rotationDirection : Option ℤ := none
  pointerAngle : Option ℚ := none
  startAngle : Option ℚ := none
  durationMs : Option ℚ := none
  easing : Option (ℚ → ℚ) := none
  jitterFactor : Option ℚ := none
  seed : Option SeedValue := none
  rng : Option (ℕ → ℚ) := none

structure SpinOptions where
  targetIndex : Option ℚ := none
  targetAngle : Option ℚ := none
  durationMs : Option ℚ := none
  minRotations : Option ℚ := none
  maxRotations : Option ℚ := none

structure RouletteState where
  phase : Phase
  angle : ℚ
  elapsedMs : ℚ
  durationMs : ℚ
  spinStartAngle : ℚ
  targetAngle : Option ℚ
  winningIndex : Option ℚ
  segments : List Segment
deriving DecidableEq

structure SpinPlan where
  winningIndex : ℚ
  targetAngle : ℚ
  durationMs : ℚ
  rotations : ℚ
deriving DecidableEq

/-! state.ts selection and planning. -/

/-- state.ts resolveRng: config.rng, else seeded rng, else Math.random
(passed explicitly as mathRandom). -/
def resolveRng (config : RouletteConfig) (mathRandom : ℕ → ℚ) : ℕ → ℚ :=
  match config.rng with
  | some f => f
  | none =>
    match config.seed with
    | some s => createSeededRng s
    | none => mathRandom

/-- state.ts resolveSegments: the state segments if non-empty, else config. -/
def resolveSegments (state : RouletteState) (config : RouletteConfig) : List Segment :=
  if 0 < state.segments.length then state.segments else config.segments

/-- state.ts resolveSegmentAngle: 360 / segmentCount. -/
def resolveSegmentAngle (segmentCount : ℕ) : ℚ := FULL_ROTATION / (segmentCount : ℚ)

/-- state.ts pickRandomIntInclusive with the single rng() draw passed as r:
floor(r * (high - low + 1)) + low. -/
def pickRandomIntInclusive (a b r : ℚ) : ℚ :=
  let low := min a b
  let high := max a b
  ((⌊r * (high - low + 1)⌋ : ℤ) : ℚ) + low

/-- The clamped weight of one segment: Math.max(0, segment.weight ?? 1). -/
def clampWeight (s : Segment) : ℚ := max 0 (s.weight.getD 1)

/-- The for-loop of selectWeightedIndex: threshold -= weights[i]; return i
when threshold <= 0; past the last weight return the fallback
(segments.length - 1 at the call site). -/
def selectLoop : List ℚ → ℚ → ℕ → ℤ → ℤ
  | [], _, _, fallback => fallback
  | w :: rest, threshold, i, fallback =>
    if threshold - w ≤ 0 then (i : ℤ) else selectLoop rest (threshold - w) (i + 1) fallback

/-- state.ts selectWeightedIndex with the single rng() draw passed as r.
Returns -1 on an empty list; uniform fallback when the total weight is 0. -/
def selectWeightedIndex (segments : List Segment) (r : ℚ) : ℤ :=
  if segments.length = 0 then -1
  else
    let weights := segments.map clampWeight
    let totalWeight := weights.sum
    if totalWeight = 0 then ⌊r * (segments.length : ℚ)⌋
    else selectLoop weights (r * totalWeight) 0 ((segments.length : ℤ) - 1)

/-- state.ts resolveWinningIndex with the selection draw passed as r
(consumed only in the branch without a forced targetIndex, as in the
source). -/
def resolveWinningIndex (segments : List Segment) (options : SpinOptions) (r : ℚ) :
    Except String ℚ :=
  match options.targetIndex with
  | some ti =>
    if ti.den ≠ 1 then .error ("targetIndex must be an integer.")
    else if ti < 0 ∨ (segments.length : ℚ) ≤ ti then
      .error ("targetIndex is out of bounds for segments.")
    else .ok ti
  | none =>
    let selected := selectWeightedIndex segments r
    if selected < 0 then .error ("Cannot select a winning index without segments.")
    else .ok (selected : ℚ)

/-- state.ts indexFromAlignmentAngle; Math.round is round-half-up. -/
def indexFromAlignmentAngle (alignmentAngle pointerAngle segmentAngle : ℚ)
    (segmentCount : ℕ) : ℚ :=
  let normalized := normalizeAngle (pointerAngle - alignmentAngle)
  let rawIndex := normalized / segmentAngle
  let rounded := jsMod ((⌊rawIndex + 1 / 2⌋ : ℤ) : ℚ) (segmentCount : ℚ)
  if rounded < 0 then rounded + (segmentCount : ℚ) else rounded

/-- state.ts createInitialState. -/
def createInitialState (config : RouletteConfig) : RouletteState :=
  let initialAngle := config.startAngle.getD 0
  { phase := .idle
    angle := initialAngle
    elapsedMs := 0
    durationMs := config.durationMs.getD 6000
    spinStartAngle := initialAngle
    targetAngle := none
    winningIndex := none
    segments := config.segments }

/-- The delta computation at the end of planSpin, split by rotation
direction; the plan target angle is state.angle + planDelta. -/
def planDelta (rotationDirection : ℤ) (currentNormalized baseAngle rotations : ℚ) : ℚ :=
  if rotationDirection = 1 then
    jsMod (baseAngle - currentNormalized + FULL_ROTATION) FULL_ROTATION + rotations * FULL_ROTATION
  else
    -(jsMod (currentNormalized - baseAngle + FULL_ROTATION) FULL_ROTATION) - rotations * FULL_ROTATION

/-- state.ts planSpin.  The generator is resolved from the config inside the
call, exactly as in the source (the engine resolves a generator of its own
and passes it, but the planSpin in the source takes only three parameters
and re-resolves; the draws of one call are stream positions 0, 1, 2 in the
order of the rng() call sites). -/
def planSpin (state : RouletteState) (config : RouletteConfig) (options : SpinOptions)
    (mathRandom : ℕ → ℚ) : Except String SpinPlan :=
  let segments := resolveSegments state config
  if segments.length = 0 then .error ("Roulette requires at least one segment.")
  else
    let rng := resolveRng config mathRandom
    let minRotations := options.minRotations.getD (config.minRotations.getD 3)
    let maxRotations := options.maxRotations.getD (config.maxRotations.getD 6)
    let rotations := pickRandomIntInclusive minRotations maxRotations (rng 0)
    let durationMs := options.durationMs.getD (config.durationMs.getD 6000)
    let rotationDirection := config.rotationDirection.getD 1
    let pointerAngle := config.pointerAngle.getD 0
    let segmentAngle := resolveSegmentAngle segments.length
    let currentNormalized := normalizeAngle state.angle
    match options.targetAngle with
    | some ta =>
      let winningIndex := indexFromAlignmentAngle ta pointerAngle segmentAngle segments.length
      let baseAngle := normalizeAngle ta
      .ok { winningIndex := winningIndex
            targetAngle := state.angle + planDelta rotationDirection currentNormalized baseAngle rotations
            durationMs := durationMs
            rotations := rotations }
    | none =>
      match resolveWinningIndex segments options (rng 1) with
      | .error e => .error e
      | .ok winningIndex =>
        let jitterFactor := config.jitterFactor.getD (3 / 10)
        let jitterDraw := rng (if options.targetIndex.isSome then 1 else 2)
        let base0 := pointerAngle - segmentAngle * winningIndex
        let base1 := if 0 < jitterFactor then base0 + (jitterDraw - 1 / 2) * segmentAngle * jitterFactor else base0
        let baseAngle := normalizeAngle base1
        .ok { winningIndex := winningIndex
              targetAngle := state.angle + planDelta rotationDirection currentNormalized baseAngle rotations
              durationMs := durationMs
              rotations := rotations }

/-- state.ts beginSpin. -/
def beginSpin (state : RouletteState) (plan : SpinPlan) : RouletteState :=
  { state with
    phase := .spinning
    elapsedMs := 0
    durationMs := plan.durationMs
    spinStartAngle := state.angle
    targetAngle := some plan.targetAngle
    winningIndex := some plan.winningIndex }

/-- state.ts step: guard for non-spinning or missing target, clamp the delta
and elapsed time, eased interpolation, terminal phase at t >= 1. -/
def step (state : RouletteState) (config : RouletteConfig) (deltaMs : ℚ) : RouletteState :=
  match state.targetAngle with
  | none => state
  | some target =>
    if state.phase ≠ Phase.spinning then state
    else
      let duration := max 0 state.durationMs
      let elapsed := clamp (state.elapsedMs + max 0 deltaMs) 0 duration
      let t := if duration = 0 then 1 else elapsed / duration
      let easing := config.easing.getD easeOutCubic
      let eased := clamp (easing t) 0 1
      let angle := lerp state.spinStartAngle target eased
      { state with
        angle := angle
        elapsedMs := elapsed
        phase := if 1 ≤ t then Phase.stopped else Phase.spinning }

/-! engine.ts: the engine closure is a record; each method returns the
updated record together with the events delivered to subscribers
(subscriber id paired with the event). -/

structure RouletteEvent where
  type : String
  state : RouletteState

structure Engine where
  config : RouletteConfig
  engineRng : ℕ → ℚ
  state : RouletteState
  listeners : List ℕ
  disposed : Bool

/-- engine.ts emit: every current listener receives the event. -/
def emit (e : Engine) (type : String) (snapshot : RouletteState) :
    List (ℕ × RouletteEvent) :=
  e.listeners.map (fun l => (l, { type := type, state := snapshot }))

/-- engine.ts createRouletteEngine: copies the config, resolves the rng once
(the resolved generator is stored but, with the three-parameter planSpin of
the source, never consulted by planning), creates the initial state, with no
listeners and not disposed.  No validation is performed. -/
def createRouletteEngine (initialConfig : RouletteConfig) (mathRandom : ℕ → ℚ) : Engine :=
  let config := initialConfig
  { config := config
    engineRng := resolveRng config mathRandom
    state := createInitialState config
    listeners := []
    disposed := false }

structure SpinOutcome where
  engine : Engine
  plan : Except String SpinPlan
  events : List (ℕ × RouletteEvent)

/-- engine.ts spin: throws when disposed; otherwise plans, and only on
success replaces the state and emits the start event. -/
def spin (e : Engine) (options : SpinOptions) (mathRandom : ℕ → ℚ) : SpinOutcome :=
  if e.disposed then { engine := e, plan := .error ("Engine is disposed."), events := [] }
  else
    match planSpin e.state e.config options mathRandom with
    | .error msg => { engine := e, plan := .error msg, events := [] }
    | .ok plan =>
      let st := beginSpin e.state plan
      let e1 : Engine := { e with state := st }
      { engine := e1, plan := .ok plan, events := emit e1 ("spin:start") st }

/-- engine.ts stopAt index = spin with a forced targetIndex. -/
def stopAt (e : Engine) (index : ℚ) (mathRandom : ℕ → ℚ) : SpinOutcome :=
  spin e { targetIndex := some index } mathRandom

/-- engine.ts tick: a silent no-op when disposed; otherwise steps, emitting
the tick event while spinning and the completion event on the
spinning-to-stopped transition. -/
def tick (e : Engine) (deltaMs : ℚ) : Engine × List (ℕ × RouletteEvent) :=
  if e.disposed then (e, [])
  else
    let prevPhase := e.state.phase
    let st := step e.state e.config deltaMs
    let e1 : Engine := { e with state := st }
    let tickEvents := if st.phase = Phase.spinning then emit e1 ("spin:tick") st else []
    let completeEvents :=
      if prevPhase = Phase.spinning ∧ st.phase = Phase.stopped
      then emit e1 ("spin:complete") st else []
    (e1, tickEvents ++ completeEvents)

/-- engine.ts subscribe: listeners is a Set, so adding twice stores once. -/
def subscribe (e : Engine) (listener : ℕ) : Engine :=
  if listener ∈ e.listeners then e else { e with listeners := e.listeners ++ [listener] }

/-- engine.ts setSegments: copies the list into the config and the snapshot,
with no emptiness check of any kind. -/
def setSegments (e : Engine) (segments : List Segment) : Engine :=
  { e with
    config := { e.config with segments := segments }
    state := { e.state with segments := segments } }

/-- engine.ts setState. -/
def setState (e : Engine) (next : RouletteState) : Engine := { e with state := next }

/-- engine.ts dispose: clears the listeners and sets the flag; nothing is
emitted. -/
def dispose (e : Engine) : Engine × List (ℕ × RouletteEvent) :=
  ({ e with listeners := [], disposed := true }, [])

/-! validation.ts (exported from the core barrel but never called by the
engine of the source). -/

structure PartialConfig where
  segments : Option (List Segment) := none
  durationMs : Option ℚ := none
  minRotations : Option ℚ := none
  maxRotations : Option ℚ := none
  jitterFactor : Option ℚ := none

/-- True when the optional field is present and violates the predicate. -/
def someAnd {α : Type} (o : Option α) (p : α → Bool) : Bool := o.elim false p

/-- validation.ts validateConfig (the Array.isArray guard of the source is
a type-level fact here). -/
def validateConfig (c : PartialConfig) : Except String Unit := do
  if someAnd c.segments (fun s => s.length == 0) then
    throw ("Roulette requires at least one segment.")
  if someAnd c.durationMs (fun d => decide (d < 0)) then
    throw ("durationMs must be non-negative.")
  if someAnd c.minRotations (fun m => decide (m < 0)) then
    throw ("minRotations must be non-negative.")
  if someAnd c.maxRotations (fun m => decide (m < 0)) then
    throw ("maxRotations must be non-negative.")
  if someAnd c.minRotations (fun a => someAnd c.maxRotations (fun b => decide (b < a))) then
    throw ("minRotations cannot be greater than maxRotations.")
  if someAnd c.jitterFactor (fun j => decide (j < 0) || decide (1 < j)) then
    throw ("jitterFactor must be between 0 and 1.")

/-- validation.ts validateSpinOptions, merging rotation bounds with the base
config for the cross-field check. -/
def validateSpinOptions (options : SpinOptions) (baseConfig : Option PartialConfig) :
    Except String Unit := do
  if someAnd options.durationMs (fun d => decide (d < 0)) then
    throw ("durationMs must be non-negative.")
  let minRot := options.minRotations <|> baseConfig.bind PartialConfig.minRotations
  let maxRot := options.maxRotations <|> baseConfig.bind PartialConfig.maxRotations
  if someAnd options.minRotations (fun m => decide (m < 0)) then
    throw ("minRotations must be non-negative.")
  if someAnd options.maxRotations (fun m => decide (m < 0)) then
    throw ("maxRotations must be non-negative.")
  if someAnd minRot (fun a => someAnd maxRot (fun b => decide (b < a))) then
    throw ("minRotations cannot be greater than maxRotations.")

/-! Claim C9. -/

/-- C9: for every (rational) angle a, normalizeAngle a lies in the interval
from 0 inclusive to 360 exclusive, normalizeAngle is invariant under adding
any integer multiple of 360, and the concrete values -90, 360 and 720 map to
270, 0 and 0. -/
theorem c9_normalizeAngle_range_and_period :
    (∀ a : ℚ, 0 ≤ normalizeAngle a ∧ normalizeAngle a < 360) ∧
    (∀ (a : ℚ) (k : ℤ), normalizeAngle (a + 360 * k) = normalizeAngle a) ∧
    normalizeAngle (-90) = 270 ∧ normalizeAngle 360 = 0 ∧ normalizeAngle 720 = 0 := by
  refine ⟨fun a => ⟨normalizeAngle_nonneg a, normalizeAngle_lt a⟩,
    fun a k => normalizeAngle_add_int_mul a k, ?_, ?_, ?_⟩ <;>
    rw [normalizeAngle_eq_fract, Int.fract] <;> norm_num

/-! Claim C10. -/

/-- C10: for every state, config and delta, step carries spinStartAngle,
targetAngle, winningIndex, durationMs and the segment list over unchanged;
only angle, elapsedMs and phase can differ. -/
theorem c10_step_frame (s : RouletteState) (c : RouletteConfig) (d : ℚ) :
    (step s c d).spinStartAngle = s.spinStartAngle ∧
    (step s c d).targetAngle = s.targetAngle ∧
    (step s c d).winningIndex = s.winningIndex ∧
    (step s c d).durationMs = s.durationMs ∧
    (step s c d).segments = s.segments := by
  unfold step
  split
  · exact ⟨rfl, rfl, rfl, rfl, rfl⟩
  · split
    · exact ⟨rfl, rfl, rfl, rfl, rfl⟩
    · exact ⟨rfl, rfl, rfl, rfl, rfl⟩

/-! Claim C8. -/

/-- C8: for every spinning state with a present targetAngle and
durationMs = 0, a single step call reaches the stopped phase, for every
delta, including zero and negative deltas. -/
theorem c8_zero_duration_stops (s : RouletteState) (c : RouletteConfig) (d : ℚ)
    (hphase : s.phase = Phase.spinning) (htgt : s.targetAngle.isSome = true)
    (hdur : s.durationMs = 0) : (step s c d).phase = Phase.stopped := by
  unfold step
  split
  · next hnone => rw [hnone] at htgt; simp at htgt
  · next target heq =>
    rw [if_neg (by simp [hphase])]
    simp [hdur]

def c8State : RouletteState :=
  { phase := .spinning
    angle := 5
    elapsedMs := 7
    durationMs := 0
    spinStartAngle := 5
    targetAngle := some 725
    winningIndex := some 0
    segments := [{ id := "a" }] }

def c8Config : RouletteConfig := { segments := [{ id := "a" }] }

/-- Witness for C8 at a concrete spinning state with a negative delta. -/
theorem c8_zero_duration_stops_witness :
    c8State.phase = Phase.spinning ∧ c8State.targetAngle.isSome = true ∧
    c8State.durationMs = 0 ∧ (step c8State c8Config (-50)).phase = Phase.stopped :=
  ⟨rfl, rfl, rfl, c8_zero_duration_stops c8State c8Config (-50) rfl rfl rfl⟩

/-! Claim C5. -/

/-- C5: when planning fails inside spin (and the engine is not disposed),
the spin call returns the error with the engine record unchanged — the
state snapshot is untouched — and no notification is emitted. -/
theorem c5_plan_failure_leaves_state (e : Engine) (options : SpinOptions)
    (mathRandom : ℕ → ℚ) (msg : String)
    (hd : e.disposed = false)
    (hplan : planSpin e.state e.config options mathRandom = .error msg) :
    spin e options mathRandom = { engine := e, plan := .error msg, events := [] } := by
  unfold spin
  rw [hd]
  simp [hplan]

def c5Config : RouletteConfig :=
  { segments := [{ id := "a", weight := some 1 }, { id := "b", weight := some 2 },
                 { id := "c", weight := some 3 }]
    minRotations := some 3
    maxRotations := some 3
    durationMs := some 1000
    jitterFactor := some 0 }

def c5Rand : ℕ → ℚ := fun _ => 0

def c5Engine : Engine := createRouletteEngine c5Config c5Rand

def c5Opts : SpinOptions := { targetIndex := some 5 }

/-- Witness for C5: a targetIndex out of bounds makes planning fail and the
spin call leaves the concrete engine untouched with no events. -/
theorem c5_plan_failure_leaves_state_witness :
    c5Engine.disposed = false ∧
    planSpin c5Engine.state c5Engine.config c5Opts c5Rand =
      .error ("targetIndex is out of bounds for segments.") ∧
    spin c5Engine c5Opts c5Rand =
      { engine := c5Engine, plan := .error ("targetIndex is out of bounds for segments."),
        events := [] } :=
  ⟨rfl, by rfl,
    c5_plan_failure_leaves_state c5Engine c5Opts c5Rand _ rfl (by rfl)⟩

/-! Claim C4. -/

/-- When the running threshold starts strictly positive and at most the sum
of the weights, the selection loop stops at an index whose weight is
strictly positive. -/
theorem selectLoop_pos_spec : ∀ (ws : List ℚ) (t : ℚ) (i : ℕ) (fb : ℤ),
    0 < t → t ≤ ws.sum →
    ∃ j w, selectLoop ws t i fb = ((i + j : ℕ) : ℤ) ∧ ws.get? j = some w ∧ 0 < w := by
  intro ws
  induction ws with
  | nil =>
    intro t i fb ht hle
    simp only [List.sum_nil] at hle
    linarith
  | cons w rest ih =>
    intro t i fb ht hle
    by_cases hc : t - w ≤ 0
    · refine ⟨0, w, ?_, rfl, by linarith⟩
      simp [selectLoop, hc]
    · push_neg at hc
      have hle2 : t - w ≤ rest.sum := by
        simp only [List.sum_cons] at hle
        linarith
      obtain ⟨j, w2, hsel, hget, hw2⟩ := ih (t - w) (i + 1) fb (by linarith) hle2
      refine ⟨j + 1, w2, ?_, by simpa using hget, hw2⟩
      rw [selectLoop, if_neg (by linarith), hsel]
      congr 1
      omega

/-- C4 (amended): when some clamped weight is strictly positive and the draw
is strictly positive (and below 1), selectWeightedIndex lands on an index
whose clamped weight is strictly positive; the original claim also allowed
the draw 0, where the loop can stop on a leading zero-weight segment. -/
theorem c4_positive_draw_skips_zero_weights (segments : List Segment) (r : ℚ)
    (hw : 0 < (segments.map clampWeight).sum) (hr0 : 0 < r) (hr1 : r < 1) :
    ∃ w, (segments.map clampWeight).get? (selectWeightedIndex segments r).toNat = some w ∧
      0 < w := by
  have hlen : ¬(segments.length = 0) := by
    intro h0
    rw [List.length_eq_zero] at h0
    rw [h0] at hw
    simp at hw
  have hW : ¬((segments.map clampWeight).sum = 0) := ne_of_gt hw
  simp only [selectWeightedIndex, if_neg hlen, if_neg hW]
  have ht : 0 < r * (segments.map clampWeight).sum := mul_pos hr0 hw
  have hle : r * (segments.map clampWeight).sum ≤ (segments.map clampWeight).sum := by
    nlinarith
  obtain ⟨j, w, hsel, hget, hwpos⟩ := selectLoop_pos_spec (segments.map clampWeight)
    (r * (segments.map clampWeight).sum) 0 ((segments.length : ℤ) - 1) ht hle
  refine ⟨w, ?_, hwpos⟩
  rw [hsel]
  simpa using hget

def c4WitnessSegments : List Segment := [{ id := "a", weight := some 2 }]

/-- Witness for C4 at one positive-weight segment and the draw 1/2. -/
theorem c4_positive_draw_skips_zero_weights_witness :
    0 < (c4WitnessSegments.map clampWeight).sum ∧ (0 : ℚ) < 1 / 2 ∧ (1 : ℚ) / 2 < 1 ∧
    ∃ w, (c4WitnessSegments.map clampWeight).get?
        (selectWeightedIndex c4WitnessSegments (1 / 2)).toNat = some w ∧ 0 < w :=
  ⟨by simp [c4WitnessSegments, clampWeight], by norm_num, by norm_num,
    c4_positive_draw_skips_zero_weights c4WitnessSegments (1 / 2)
      (by simp [c4WitnessSegments, clampWeight]) (by norm_num) (by norm_num)⟩

def c4CexSegments : List Segment :=
  [{ id := "x", weight := some 0 }, { id := "y", weight := some 1 }]

/-- Counterexample for C4 as stated: the draw 0 lies in the claimed interval
and the total clamped weight is positive, yet selectWeightedIndex returns
index 0, whose clamped weight is 0. -/
theorem c4_zero_draw_selects_zero_weight :
    (0 : ℚ) ≤ 0 ∧ (0 : ℚ) < 1 ∧
    0 < (c4CexSegments.map clampWeight).sum ∧
    selectWeightedIndex c4CexSegments 0 = 0 ∧
    (c4CexSegments.map clampWeight).get? 0 = some 0 := by
  refine ⟨le_refl 0, by norm_num, ?_, ?_, ?_⟩
  · simp [c4CexSegments, clampWeight]
  · simp [c4CexSegments, selectWeightedIndex, clampWeight, selectLoop]
  · simp [c4CexSegments, clampWeight]

/-! Claim C7. -/

/-- The JS remainder by 360 of a nonnegative dividend is nonnegative. -/
theorem jsMod_360_nonneg {a : ℚ} (ha : 0 ≤ a) : 0 ≤ jsMod a 360 := by
  unfold jsMod
  rw [jsTrunc_of_nonneg (by positivity : (0 : ℚ) ≤ a / 360)]
  have hfl := Int.floor_le (a / 360)
  have hca : a / 360 * 360 = a := div_mul_cancel₀ a (by norm_num)
  have h2 := mul_le_mul_of_nonneg_right hfl (by norm_num : (0 : ℚ) ≤ 360)
  rw [hca] at h2
  linarith

/-- pickRandomIntInclusive never goes below the lower bound when the draw is
nonnegative. -/
theorem pickRandomIntInclusive_low_le {a b r : ℚ} (hr : 0 ≤ r) :
    min a b ≤ pickRandomIntInclusive a b r := by
  simp only [pickRandomIntInclusive]
  have hspan : (0 : ℚ) ≤ max a b - min a b + 1 := by
    have := min_le_max (a := a) (b := b)
    linarith
  have hprod : (0 : ℚ) ≤ r * (max a b - min a b + 1) := mul_nonneg hr hspan
  have hfl : (0 : ℤ) ≤ ⌊r * (max a b - min a b + 1)⌋ := Int.le_floor.mpr (by exact_mod_cast hprod)
  have hflq : (0 : ℚ) ≤ (⌊r * (max a b - min a b + 1)⌋ : ℚ) := by exact_mod_cast hfl
  linarith

/-- In the reverse direction the delta is strictly negative as soon as the
rotation count is at least 1. -/
theorem planDelta_neg_of_one_le (cn ba rot : ℚ) (hcn : 0 ≤ cn) (hba : ba < 360)
    (hrot : 1 ≤ rot) : planDelta (-1) cn ba rot < 0 := by
  unfold planDelta
  rw [if_neg (by decide)]
  simp only [FULL_ROTATION]
  have h0 : (0 : ℚ) ≤ cn - ba + 360 := by linarith
  have hm := jsMod_360_nonneg h0
  nlinarith

/-- The target angle produced with direction -1 and a rotation count of at
least 1 drops strictly below the current angle. -/
theorem add_planDelta_neg_dir_lt (ang x rot : ℚ) (hrot : 1 ≤ rot) :
    ang + planDelta (-1) (normalizeAngle ang) (normalizeAngle x) rot < ang := by
  have hd := planDelta_neg_of_one_le (normalizeAngle ang) (normalizeAngle x) rot
    (normalizeAngle_nonneg ang) (normalizeAngle_lt x) hrot
  linarith

/-- C7 (amended): with rotationDirection -1, nonnegative rng draws and
effective rotation bounds both at least 1 (so the resolved rotation count is
at least 1), every successful plan has a target angle strictly below the
current angle; with rotation count 0 and an aligned target the two can be
equal. -/
theorem c7_reverse_rotation_targets_backward (st : RouletteState) (cfg : RouletteConfig)
    (opts : SpinOptions) (mathRandom : ℕ → ℚ) (plan : SpinPlan)
    (hdir : cfg.rotationDirection = some (-1))
    (hrng : 0 ≤ resolveRng cfg mathRandom 0)
    (hmin : 1 ≤ opts.minRotations.getD (cfg.minRotations.getD 3))
    (hmax : 1 ≤ opts.maxRotations.getD (cfg.maxRotations.getD 6))
    (hok : planSpin st cfg opts mathRandom = .ok plan) :
    plan.targetAngle < st.angle := by
  have hrot : 1 ≤ pickRandomIntInclusive (opts.minRotations.getD (cfg.minRotations.getD 3))
      (opts.maxRotations.getD (cfg.maxRotations.getD 6)) (resolveRng cfg mathRandom 0) :=
    le_trans (le_min hmin hmax) (pickRandomIntInclusive_low_le hrng)
  simp only [planSpin] at hok
  by_cases hlen : (resolveSegments st cfg).length = 0
  · rw [if_pos hlen] at hok
    exact absurd hok (by simp)
  · rw [if_neg hlen] at hok
    rw [hdir] at hok
    simp only [Option.getD] at hok
    split at hok
    · injection hok with h
      subst h
      dsimp only
      exact add_planDelta_neg_dir_lt st.angle _ _ hrot
    · split at hok
      · exact absurd hok (by simp)
      · injection hok with h
        subst h
        dsimp only
        exact add_planDelta_neg_dir_lt st.angle _ _ hrot

def c7Rand : ℕ → ℚ := fun _ => 0

def c7CexConfig : RouletteConfig :=
  { segments := [{ id := "only" }]
    minRotations := some 0
    maxRotations := some 0
    rotationDirection := some (-1)
    jitterFactor := some 0
    rng := some c7Rand }

def c7CexState : RouletteState := createInitialState c7CexConfig

def c7CexOpts : SpinOptions := { targetIndex := some 0 }

/-- Counterexample for C7 as stated: with rotationDirection -1 but rotation
bounds 0 and a target aligned with the current angle, planning succeeds and
the target angle equals (is not strictly below) the current angle. -/
theorem c7_zero_rotations_equal_target :
    c7CexConfig.rotationDirection = some (-1) ∧
    (planSpin c7CexState c7CexConfig c7CexOpts c7Rand).toOption.map
      (fun p => decide (p.targetAngle < c7CexState.angle)) = some false := by
  refine ⟨rfl, ?_⟩
  norm_num [planSpin, c7CexState, c7CexConfig, c7CexOpts, c7Rand, createInitialState,
    resolveSegments, resolveRng, resolveSegmentAngle, pickRandomIntInclusive,
    resolveWinningIndex, planDelta, jsMod, jsTrunc, normalizeAngle, FULL_ROTATION,
    Except.toOption]

def c7WitConfig : RouletteConfig :=
  { segments := [{ id := "only" }]
    minRotations := some 1
    maxRotations := some 1
    rotationDirection := some (-1)
    jitterFactor := some 0
    rng := some c7Rand }

def c7WitState : RouletteState := createInitialState c7WitConfig

def c7WitOpts : SpinOptions := { targetIndex := some 0 }

/-- Witness for C7 (amended) at rotation bounds 1: the plan exists and its
target angle is strictly below the current angle. -/
theorem c7_reverse_rotation_targets_backward_witness :
    c7WitConfig.rotationDirection = some (-1) ∧
    0 ≤ resolveRng c7WitConfig c7Rand 0 ∧
    1 ≤ c7WitOpts.minRotations.getD (c7WitConfig.minRotations.getD 3) ∧
    1 ≤ c7WitOpts.maxRotations.getD (c7WitConfig.maxRotations.getD 6) ∧
    ∃ plan, planSpin c7WitState c7WitConfig c7WitOpts c7Rand = .ok plan ∧
      plan.targetAngle < c7WitState.angle := by
  have hsome : (planSpin c7WitState c7WitConfig c7WitOpts c7Rand).toOption.isSome = true := by
    norm_num [planSpin, c7WitState, c7WitConfig, c7WitOpts, c7Rand, createInitialState,
      resolveSegments, resolveRng, resolveSegmentAngle, pickRandomIntInclusive,
      resolveWinningIndex, planDelta, jsMod, jsTrunc, normalizeAngle, FULL_ROTATION,
      Except.toOption]
  refine ⟨rfl, by simp [resolveRng, c7WitConfig, c7Rand], by simp [c7WitOpts, c7WitConfig],
    by simp [c7WitOpts, c7WitConfig], ?_⟩
  cases hplan : planSpin c7WitState c7WitConfig c7WitOpts c7Rand with
  | error msg =>
    rw [hplan] at hsome
    simp [Except.toOption] at hsome
  | ok plan =>
    exact ⟨plan, rfl,
      c7_reverse_rotation_targets_backward c7WitState c7WitConfig c7WitOpts c7Rand plan rfl
        (by simp [resolveRng, c7WitConfig, c7Rand]) (by simp [c7WitOpts, c7WitConfig])
        (by simp [c7WitOpts, c7WitConfig]) hplan⟩

/-! Claim C1. -/

/-- Math.random stand-in for the C1 run; never consulted because the config
carries a seed and planSpin resolves the seeded generator. -/
def c1Rand : ℕ → ℚ := fun _ => 0

/-- Character codes of the seed string "deterministic". -/
def detCodes : List ℕ := [100, 101, 116, 101, 114, 109, 105, 110, 105, 115, 116, 105, 99]

/-- Ten equal-weight segments (ids as in the repository test). -/
def c1Segments : List Segment :=
  [{ id := "0", weight := some 1 }, { id := "1", weight := some 1 },
   { id := "2", weight := some 1 }, { id := "3", weight := some 1 },
   { id := "4", weight := some 1 }, { id := "5", weight := some 1 },
   { id := "6", weight := some 1 }, { id := "7", weight := some 1 },
   { id := "8", weight := some 1 }, { id := "9", weight := some 1 }]

def c1Config : RouletteConfig :=
  { segments := c1Segments
    minRotations := some 1
    maxRotations := some 1
    durationMs := some 100
    jitterFactor := some 0
    seed := some (.str detCodes) }

/-- One engine round per entry: spin, then complete the spin by ticking the
whole plan duration; records the planned winning index and the phase after
the completing tick. -/
def c1SpinRounds : ℕ → Engine → List (ℚ × Phase)
  | 0, _ => []
  | n + 1, e =>
    let outcome := spin e {} c1Rand
    match outcome.plan with
    | .error _ => []
    | .ok plan =>
      let e1 := (tick outcome.engine plan.durationMs).1
      (plan.winningIndex, e1.state.phase) :: c1SpinRounds n e1

theorem hashStringSeed_det : hashStringSeed detCodes = 1185140964 := by rfl

theorem c1_draw1 :
    createSeededRng (SeedValue.str detCodes) 1 = ((829593905 : ℕ) : ℚ) / 4294967296 := by rfl

theorem c1_selectWeighted :
    selectWeightedIndex c1Segments (((829593905 : ℕ) : ℚ) / 4294967296) = 1 := by
  norm_num [selectWeightedIndex, c1Segments, clampWeight, selectLoop]

/-- Planning against the seeded config always selects index 1 (with the
spin duration 100), whatever the state: the generator is re-resolved from
the seed inside every planSpin call, so the selection draw is always stream
position 1 of the same seeded sequence. -/
theorem c1_plan_eval (st : RouletteState) (hseg : st.segments = c1Segments) :
    (planSpin st c1Config {} c1Rand).toOption.map
      (fun p => (p.winningIndex, p.durationMs)) = some (1, 100) := by
  have hrng1 : resolveRng c1Config c1Rand 1 = ((829593905 : ℕ) : ℚ) / 4294967296 := by rfl
  have hsel : selectWeightedIndex c1Segments (resolveRng c1Config c1Rand 1) = 1 := by
    rw [hrng1]
    exact c1_selectWeighted
  have hres : resolveWinningIndex c1Segments ({} : SpinOptions) (resolveRng c1Config c1Rand 1) =
      .ok 1 := by
    simp [resolveWinningIndex, hsel]
  have hrs : resolveSegments st c1Config = c1Segments := by
    unfold resolveSegments
    rw [hseg]
    rw [if_pos (by decide : 0 < c1Segments.length)]
  simp only [planSpin, hrs]
  rw [if_neg (by decide : ¬(c1Segments.length = 0))]
  rw [hres]
  simp [Except.toOption, c1Config]

theorem step_keeps_segments (s : RouletteState) (c : RouletteConfig) (d : ℚ) :
    (step s c d).segments = s.segments := by
  unfold step
  split
  · rfl
  · split <;> rfl

theorem tick_keeps_config (e : Engine) (d : ℚ) : (tick e d).1.config = e.config := by
  unfold tick
  split <;> rfl

theorem tick_keeps_disposed (e : Engine) (d : ℚ) : (tick e d).1.disposed = e.disposed := by
  unfold tick
  split <;> rfl

theorem tick_keeps_segments (e : Engine) (d : ℚ) :
    (tick e d).1.state.segments = e.state.segments := by
  unfold tick
  split
  · rfl
  · exact step_keeps_segments e.state e.config d

/-- A non-disposed spinning engine whose current spin has duration 100 and
elapsed 0 stops on a tick of the full duration. -/
theorem tick_100_stops (e : Engine) (hd : e.disposed = false)
    (hph : e.state.phase = Phase.spinning) (ht : e.state.targetAngle.isSome = true)
    (hdur : e.state.durationMs = 100) (hel : e.state.elapsedMs = 0) :
    (tick e 100).1.state.phase = Phase.stopped := by
  unfold tick
  rw [hd]
  simp only [Bool.false_eq_true, if_false]
  unfold step
  split
  · next hnone => rw [hnone] at ht; simp at ht
  · next target heq =>
    rw [if_neg (by simp [hph])]
    simp only [hdur, hel]
    norm_num [clamp]

/-- Every round of the seeded engine run yields winning index 1 and a
completed (stopped) spin, by induction over the number of rounds. -/
theorem c1_rounds_const : ∀ (n : ℕ) (e : Engine), e.config = c1Config →
    e.state.segments = c1Segments → e.disposed = false →
    c1SpinRounds n e = List.replicate n (1, Phase.stopped) := by
  intro n
  induction n with
  | zero => intro e _ _ _; rfl
  | succ n ih =>
    intro e hc hs hd
    have hw := c1_plan_eval e.state hs
    cases hplan : planSpin e.state c1Config ({} : SpinOptions) c1Rand with
    | error msg =>
      rw [hplan] at hw
      simp [Except.toOption] at hw
    | ok plan =>
      have hpair : plan.winningIndex = 1 ∧ plan.durationMs = 100 := by
        rw [hplan] at hw
        simp [Except.toOption] at hw
        exact hw
      have hspin : spin e ({} : SpinOptions) c1Rand =
          { engine := { e with state := beginSpin e.state plan }, plan := .ok plan,
            events := emit { e with state := beginSpin e.state plan } ("spin:start")
              (beginSpin e.state plan) } := by
        unfold spin
        rw [hd]
        simp only [Bool.false_eq_true, if_false]
        rw [hc, hplan]
      have hstop : (tick { e with state := beginSpin e.state plan } plan.durationMs).1.state.phase
          = Phase.stopped := by
        rw [hpair.2]
        exact tick_100_stops _ hd rfl rfl (by simp [beginSpin, hpair.2]) rfl
      simp only [c1SpinRounds, hspin]
      rw [hpair.1, hstop]
      congr 1
      apply ih
      · rw [tick_keeps_config]
        exact hc
      · rw [tick_keeps_segments]
        simp [beginSpin, hs]
      · rw [tick_keeps_disposed]
        exact hd

/-- C1: against the code, five consecutive seeded engine spins over ten
equal-weight segments, each completed by a full-duration tick before the
next, all select winning index 1 — the generator is re-resolved from the
seed inside every planSpin call, so the seeded sequence restarts and every
spin repeats the first draws, contradicting the claimed sequence
advancement. -/
theorem c1_seeded_spins_repeat_winner :
    c1SpinRounds 5 (createRouletteEngine c1Config c1Rand) =
      List.replicate 5 (1, Phase.stopped) :=
  c1_rounds_const 5 _ rfl rfl rfl

/-! Claim C2. -/

def c2Rand : ℕ → ℚ := fun _ => 0

def c2Segments : List Segment :=
  [{ id := "a", weight := some 1 }, { id := "b", weight := some 2 },
   { id := "c", weight := some 3 }]

def c2BadConfig : RouletteConfig := { segments := c2Segments, durationMs := some (-100) }

def c2GoodConfig : RouletteConfig :=
  { segments := c2Segments
    minRotations := some 3
    maxRotations := some 3
    durationMs := some 1000
    jitterFactor := some 0 }

def c2Override : SpinOptions := { targetIndex := some 0, durationMs := some (-50) }

def c2InvertedConfig : RouletteConfig :=
  { segments := c2Segments, minRotations := some 10, maxRotations := some 2 }

def c2JitterConfig : RouletteConfig := { segments := c2Segments, jitterFactor := some 5 }

/-- C2: against the code, createRouletteEngine performs no validation —
creation with a negative duration, an empty segment list, inverted rotation
bounds or an out-of-range jitter factor completes and keeps the invalid
values, and a spin with a negative per-call duration override succeeds and
installs the negative duration into the state — while the validation module
of the repository would reject exactly these inputs with the errors its
tests expect. -/
theorem c2_engine_skips_validation :
    (createRouletteEngine c2BadConfig c2Rand).state.durationMs = -100 ∧
    (createRouletteEngine { segments := [] } c2Rand).state.segments = [] ∧
    (createRouletteEngine c2InvertedConfig c2Rand).state.phase = Phase.idle ∧
    (createRouletteEngine c2JitterConfig c2Rand).state.phase = Phase.idle ∧
    ((spin (createRouletteEngine c2GoodConfig c2Rand) c2Override c2Rand).plan).isOk = true ∧
    (spin (createRouletteEngine c2GoodConfig c2Rand) c2Override c2Rand).engine.state.durationMs
      = -50 ∧
    validateConfig { segments := some c2Segments, durationMs := some (-100) } =
      .error ("durationMs must be non-negative.") ∧
    validateConfig { segments := some [] } =
      .error ("Roulette requires at least one segment.") ∧
    validateConfig { segments := some c2Segments, minRotations := some 10, maxRotations := some 2 } =
      .error ("minRotations cannot be greater than maxRotations.") ∧
    validateConfig { segments := some c2Segments, jitterFactor := some 5 } =
      .error ("jitterFactor must be between 0 and 1.") ∧
    validateSpinOptions c2Override none = .error ("durationMs must be non-negative.") :=
  ⟨rfl, rfl, rfl, rfl, rfl, rfl, rfl, rfl, rfl, rfl, rfl⟩

/-! Claim C3. -/

def c3Rand : ℕ → ℚ := fun _ => 0

def c3Config : RouletteConfig := { segments := [{ id := "a" }] }

/-- An engine with one subscriber (id 0) registered before dispose. -/
def c3Engine : Engine := subscribe (createRouletteEngine c3Config c3Rand) 0

/-- C3: against the code, dispose clears the subscribers, marks the engine
disposed and is idempotent, and nothing is delivered afterwards — but it
also delivers nothing at the moment of disposal: the subscriber registered
before the dispose call receives no disposed notification, contradicting
the claimed disposed event. -/
theorem c3_dispose_emits_nothing :
    c3Engine.listeners = [0] ∧
    (dispose c3Engine).2 = [] ∧
    (dispose c3Engine).1.listeners = [] ∧
    (dispose c3Engine).1.disposed = true ∧
    (dispose (dispose c3Engine).1).2 = [] ∧
    (dispose (dispose c3Engine).1).1.listeners = [] ∧
    (dispose (dispose c3Engine).1).1.disposed = true ∧
    (tick (dispose c3Engine).1 100).2 = [] ∧
    (spin (dispose c3Engine).1 {} c3Rand).events = [] ∧
    (spin (dispose c3Engine).1 {} c3Rand).plan = .error ("Engine is disposed.") :=
  ⟨rfl, rfl, rfl, rfl, rfl, rfl, rfl, rfl, rfl, rfl⟩

/-! Claim C6. -/

/-- C6: against the code, setSegments installs whatever list it is given —
including the empty list — into both the engine configuration and the
current snapshot, without any emptiness check; the operation is total and
never raises. -/
theorem c6_setSegments_accepts_empty (e : Engine) (segments : List Segment) :
    (setSegments e segments).state.segments = segments ∧
    (setSegments e segments).config.segments = segments ∧
    (setSegments e []).state.segments = [] ∧
    (setSegments e []).config.segments = [] :=
  ⟨rfl, rfl, rfl, rfl⟩

end BullRoulette
